import Mathlib

/-!
Verification development for the visvasity/daemon repository.

The repository has three Go source files:
  * package `monitor` (file part_000, func `SelfMonitor`, `Options` and its
    `setDefaults`/`check` methods),
  * package `initstatus` (file part_000, func `Receiver` and `Report`),
  * package `daemon` (file part_001, func `Daemonize`, `daemonizeParent`,
    `daemonizeChild`).

This file shallowly embeds the pure decision logic of those functions:
Go `time.Duration` values are `Int` nanoseconds, Go errors are the inductive
`GoErr` below (where constructor distinctness models Go pointer identity of
distinct error values, which is what `errors.Is` compares for unwrapped
errors created by `errors.New`), and the concurrent supervision loop of
`SelfMonitor` is a labelled transition system whose events are the wakeup
sources of the Go `select` statements.
-/

namespace Daemon

/-- Go `os.Signal` values.  `os.Interrupt` is the `interrupt` constructor;
any other signal a caller may supply is `named s`. -/
inductive Sig where
  | interrupt : Sig
  | named (s : String) : Sig
deriving DecidableEq, Repr

/-- Go error values that appear in the repository.  Each `errors.New` call
site and each distinguished standard-library error is its own constructor,
so that propositional equality of `GoErr` coincides with Go's `errors.Is`
on these (unwrapped) errors: the sentinel `errReady` created inside
`initstatus.Receiver` is equal only to itself, never to an
`errors.New(string(data))` error even when `data == "ready"`. -/
inductive GoErr where
  | sentinelReady : GoErr
  | errClosed : GoErr
  | errInvalid : GoErr
  | canceled : GoErr
  | outerCancel : GoErr
  | exitError (s : String) : GoErr
  | msg (s : String) : GoErr
deriving DecidableEq, Repr

/-- Package monitor, type `Options` (part_000 lines 20-25).  Durations are
nanosecond counts, matching Go `time.Duration`; the nil interface value of
`ShutdownSignal` is `none`. -/
structure Options where
  shutdownSignal : Option Sig
  shutdownTimeout : Int
  minBackoff : Int
  maxBackoff : Int
deriving DecidableEq, Repr

/-- Method `(*Options).setDefaults` (part_000 lines 27-40): four sequential
if-statements, each replacing a zero field with its default value
(interrupt signal, 10s, 1s, 1min in nanoseconds). -/
def Options.setDefaults (v : Options) : Options :=
  let v1 := if v.shutdownSignal = none then { v with shutdownSignal := some .interrupt } else v
  let v2 := if v1.shutdownTimeout = 0 then { v1 with shutdownTimeout := 10000000000 } else v1
  let v3 := if v2.minBackoff = 0 then { v2 with minBackoff := 1000000000 } else v2
  if v3.maxBackoff = 0 then { v3 with maxBackoff := 60000000000 } else v3

/-- Method `(*Options).check` (part_000 lines 42-47): rejects option sets
whose max backoff is smaller than the min backoff. -/
def Options.check (v : Options) : Option GoErr :=
  if v.maxBackoff < v.minBackoff then
    some (.msg "max backoff timeout is smaller than min backoff timeout")
  else
    none

/-- The zero `Options` value, produced by `new(Options)` when the caller
passes a nil pointer (part_000 lines 60-62). -/
def zeroOptions : Options :=
  { shutdownSignal := none, shutdownTimeout := 0, minBackoff := 0, maxBackoff := 0 }

/-- The options value `SelfMonitor` works with: the caller's value (or the
zero value for a nil pointer) after `setDefaults` (part_000 lines 60-63). -/
def effectiveOptions (optsIn : Option Options) : Options :=
  (optsIn.getD zeroOptions).setDefaults

/-- The fully defaulted option set, `effectiveOptions none`. -/
def defaultOptions : Options := effectiveOptions none

/-- Reinterpret an integer as a Go `int64`: reduce modulo 2^64 and take the
two's-complement signed value. -/
def int64wrap (x : Int) : Int :=
  let r := x % (2 ^ 64 : Int)
  if r < 2 ^ 63 then r else r - 2 ^ 64

/-- Go left shift `x << n` on `int64` (as in
`opts.MinBackoffTimeout << time.Duration(i)`, part_000 line 117): the low
64 bits of `x * 2^n`, interpreted as a signed value. -/
def goShlInt64 (x : Int) (n : Nat) : Int := int64wrap (x * 2 ^ n)

/-- The backoff timeout computed at part_000 line 117 for attempt index `i`:
`min(opts.MinBackoffTimeout << i, opts.MaxBackoffTimeout)` with Go `int64`
shift semantics. -/
def backoffTimeout (o : Options) (i : Nat) : Int :=
  min (goShlInt64 o.minBackoff i) o.maxBackoff

/-- The cancellation cause recorded by the HTTP handler of
`initstatus.Receiver` (part_000 lines 166-177) when a report with body
`body` is read successfully: a fresh `errors.New(string(data))` error for a
non-empty body, the `errReady` sentinel for an empty body. -/
def handlerCause (body : String) : GoErr :=
  if body.length ≠ 0 then .msg body else .sentinelReady

/-- The return value of the `receiver` closure of `initstatus.Receiver`
(part_000 lines 184-197) given the cancellation cause `err` that its
`select` observed first: `errors.Is(err, errReady)` means success (`none`),
anything else is returned as the error. -/
def receiverResult (err : GoErr) : Option GoErr :=
  if err = .sentinelReady then none else some err

/-- The event that resolves one `initstatus.Receiver` endpoint: the first
of a delivered report (`report body`, handler lines 166-177), a body-read
error (`readError`), the caller's context firing in the receiver's select
(`callerCtxDone`, line 187-188), the closer being invoked
(`released`, line 199, which cancels with `os.ErrClosed`), or the parent
context of the endpoint firing (`parentCtxDone`, since `rctx` is derived
from the `Receiver` argument context at line 165). -/
inductive ResolveEvent where
  | report (body : String) : ResolveEvent
  | readError (e : GoErr) : ResolveEvent
  | callerCtxDone (cause : GoErr) : ResolveEvent
  | released : ResolveEvent
  | parentCtxDone (cause : GoErr) : ResolveEvent
deriving DecidableEq, Repr

/-- The cancellation cause each resolve event records, read off the
corresponding `rcancel`/`context.Cause` call in part_000 lines 163-199. -/
def resolvedCause : ResolveEvent → GoErr
  | .report body => handlerCause body
  | .readError e => e
  | .callerCtxDone c => c
  | .released => .errClosed
  | .parentCtxDone c => c

/-- The value the readiness waiter returns for a given resolve event:
`none` for a nil Go error, `some e` for error `e`. -/
def receiverOutcome (ev : ResolveEvent) : Option GoErr :=
  receiverResult (resolvedCause ev)

/-- The cancellation cause of the per-attempt context when the child
process exits before any readiness report (part_000 lines 104-112): the
goroutine calls `childCancel(err)` for a non-nil `cmd.Run` error and
`childCancel(nil)` — whose recorded cause is `context.Canceled` — for a
clean exit. -/
def childExitCause : Option String → GoErr
  | some s => .exitError s
  | none => .canceled

/-- The wakeup events of the `SelfMonitor` loop (part_000 lines 79-135):
the loop-guard read of `ctx.Err()` (clear or canceled), an initialization
report with a given body arriving at the attempt's endpoint, the child
process exiting before readiness (with the `cmd.Run` error message, `none`
for a clean exit), the outer context firing while blocked, the backoff
timer firing, and the per-attempt context firing during the healthy wait. -/
inductive LoopEvent where
  | guardClear : LoopEvent
  | guardCanceled : LoopEvent
  | report (body : String) : LoopEvent
  | childExit (runErr : Option String) : LoopEvent
  | outerCanceled : LoopEvent
  | backoffElapsed : LoopEvent
  | healthyWake : LoopEvent
deriving DecidableEq, Repr

/-- The control states of the `SelfMonitor` loop: `starting i` is the loop
guard with attempt index `i` about to spawn, `running i` is blocked in
`receiver(childCtx)` (line 114), `backing i` is the backoff select (lines
120-123), `healthy` is the post-readiness select (lines 130-133) — entered
after `i` was reset to 0 at line 128 — and `exited` is the return at line
136. -/
inductive LoopState where
  | starting (i : Nat) : LoopState
  | running (i : Nat) : LoopState
  | backing (i : Nat) : LoopState
  | healthy : LoopState
  | exited : LoopState
deriving DecidableEq, Repr

/-- The cancellation cause that resolves the `receiver(childCtx)` call when
the given event occurs in the `running` state: a report resolves the
endpoint's context with `handlerCause`, a child exit cancels `childCtx`
with `childExitCause`, and outer cancellation propagates the outer cause to
`childCtx`.  Events that do not wake the receiver map to `none`. -/
def runningCause : LoopEvent → Option GoErr
  | .report body => some (handlerCause body)
  | .childExit r => some (childExitCause r)
  | .outerCanceled => some .outerCancel
  | _ => none

/-- One transition of the `SelfMonitor` loop (part_000 lines 79-135).
`none` means the event does not wake the loop in that state.  From
`running i`, the receiver's result decides between the healthy wait
(receiver returned nil, lines 127-133, which sets `i = 0`) and the backoff
path (lines 114-124); the `for` post-statement `i++` at line 79 yields the
successor indices `i+1` after backoff and `0+1` after the healthy wait. -/
def loopStep : LoopState → LoopEvent → Option LoopState
  | .starting i, .guardClear => some (.running i)
  | .starting _, .guardCanceled => some .exited
  | .running i, e =>
      match runningCause e with
      | none => none
      | some c =>
          match receiverResult c with
          | none => some .healthy
          | some _ => some (.backing i)
  | .backing i, .backoffElapsed => some (.starting (i + 1))
  | .backing i, .outerCanceled => some (.starting (i + 1))
  | .healthy, .healthyWake => some (.starting 1)
  | .healthy, .outerCanceled => some (.starting 1)
  | _, _ => none

/-- Run the loop transition system over a list of events, failing if an
event is not enabled. -/
def loopRun (s : LoopState) : List LoopEvent → Option LoopState
  | [] => some s
  | e :: es =>
      match loopStep s e with
      | none => none
      | some s2 => loopRun s2 es

/-- The outcome of one supervision attempt, as seen by the backoff
counter: the attempt either fails (receiver returned an error: explicit
failure report, child died first, or cancellation) or succeeds and later
wakes from the healthy wait. -/
inductive AttemptOutcome where
  | failed (cause : GoErr) : AttemptOutcome
  | succeededThenWoke : AttemptOutcome
deriving DecidableEq, Repr

/-- The sequence of backoff delays slept by the `SelfMonitor` loop, given
the starting attempt index and the outcomes of successive attempts.  A
failed attempt at index `i` sleeps `backoffTimeout o i` (line 117) and the
post-statement `i++` moves to index `i+1`; a successful attempt sets
`i = 0` at line 128 and the same `i++` then moves to index `1`. -/
def delayTrace (o : Options) : Nat → List AttemptOutcome → List Int
  | _, [] => []
  | i, .failed _ :: rest => backoffTimeout o i :: delayTrace o (i + 1) rest
  | _, .succeededThenWoke :: rest => delayTrace o 1 rest

/-- How `SelfMonitor` returns, or proceeds, before spawning anything:
`fail e` is a non-nil error return, `childReturnNil` is the nil return of
the child branch (line 73), and `monitorLoop o` means control reaches the
supervision loop at line 79 with the defaulted options `o`.  Child
processes are spawned only inside the loop. -/
inductive PreResult where
  | fail (e : GoErr) : PreResult
  | childReturnNil : PreResult
  | monitorLoop (o : Options) : PreResult
deriving DecidableEq, Repr

/-- The pre-loop logic of `SelfMonitor` (part_000 lines 59-79), in source
order: default the options (nil pointer becomes `new(Options)`), run
`check`, reject an empty `envKey` with `os.ErrInvalid`, return nil if the
environment already carries a non-empty value for `envKey`, otherwise enter
the loop.  `env` is the process environment as a total lookup function,
`os.Getenv`. -/
def selfMonitorPre (envKey : String) (env : String → String) (optsIn : Option Options) :
    PreResult :=
  let opts := effectiveOptions optsIn
  match opts.check with
  | some e => .fail e
  | none =>
      if envKey.length = 0 then .fail .errInvalid
      else if (env envKey).length ≠ 0 then .childReturnNil
      else .monitorLoop opts

/-- The caller's `Options` value after `SelfMonitor` returns, for a non-nil
`opts` pointer: `SelfMonitor` calls `opts.setDefaults()` through the
pointer at line 63 and no code in `SelfMonitor`, `setDefaults` excepted,
writes any `Options` field, so the caller observes exactly the defaulted
value. -/
def selfMonitorOptsAfter (o : Options) : Options := o.setDefaults

/-- The environment `daemonizeParent` (part_001 lines 130-141) gives the
background process, as (name, value) pairs in order: the caller's current
PATH, USER and HOME values, then `envKey=envValue`.  It is built literally
from these four entries; `os.Environ()` is never consulted. -/
def daemonizeParentEnv (env : String → String) (envKey envValue : String) :
    List (String × String) :=
  [("PATH", env "PATH"), ("USER", env "USER"), ("HOME", env "HOME"), (envKey, envValue)]

/-- C1 counterexample: with the default options, a run whose first attempt
succeeds and whose second attempt fails sleeps `2 * minBackoff` (the delay
for attempt index 1), not `minBackoff` as the claim states: after the
success sets `i = 0` at line 128, the loop post-statement `i++` makes the
next attempt run with index 1. -/
theorem c1_reset_counterexample :
    delayTrace defaultOptions 0 [.succeededThenWoke, .failed .outerCancel]
        = [2 * defaultOptions.minBackoff] ∧
      delayTrace defaultOptions 0 [.succeededThenWoke, .failed .outerCancel]
        ≠ [defaultOptions.minBackoff] := by
  constructor
  · rfl
  · decide

/-- C1 (amended): a successful readiness report resets the loop variable to
0, but the loop's `i++` post-statement then yields attempt index 1, so the
next failed attempt after a success sleeps `backoffTimeout o 1 =
min(minBackoff << 1, maxBackoff)`, and the failure sequence continues from
index 2. -/
theorem c1_reset_next_attempt_index_one (o : Options) (j : Nat) (c : GoErr)
    (rest : List AttemptOutcome) :
    delayTrace o j (.succeededThenWoke :: .failed c :: rest)
      = backoffTimeout o 1 :: delayTrace o 2 rest := rfl

/-- C2 counterexample: with the default options (min backoff 1s, max
backoff 60s) and attempt index 34, the Go `int64` shift at line 117 wraps
around: the computed timeout is negative, not
`min(minBackoff * 2^34, maxBackoff) = maxBackoff`. -/
theorem c2_backoff_counterexample :
    backoffTimeout defaultOptions 34 = -1266874889709551616 ∧
      backoffTimeout defaultOptions 34
        ≠ min (defaultOptions.minBackoff * 2 ^ 34) defaultOptions.maxBackoff := by
  constructor
  · rfl
  · decide

/-- C2 (amended): for every option set with a nonnegative min backoff and
every attempt index `i` such that `minBackoff * 2^i` fits in a signed
64-bit integer, the backoff timeout computed at line 117 equals
`min(minBackoff * 2^i, maxBackoff)`.  Outside that range the `int64` shift
wraps modulo 2^64 and the equality fails. -/
theorem c2_backoff_formula (o : Options) (i : Nat) (h0 : 0 ≤ o.minBackoff)
    (h1 : o.minBackoff * 2 ^ i < 2 ^ 63) :
    backoffTimeout o i = min (o.minBackoff * 2 ^ i) o.maxBackoff := by
  have hx0 : 0 ≤ o.minBackoff * 2 ^ i := by positivity
  have hx64 : o.minBackoff * 2 ^ i < (2 ^ 64 : Int) := lt_trans h1 (by norm_num)
  unfold backoffTimeout goShlInt64 int64wrap
  rw [Int.emod_eq_of_lt hx0 hx64]
  simp only [if_pos h1]

/-- Witness for `c2_backoff_formula` at the default options and attempt
index 3: the computed timeout is `min(8s, 60s) = 8s`. -/
theorem c2_backoff_formula_witness :
    backoffTimeout defaultOptions 3
        = min (defaultOptions.minBackoff * 2 ^ 3) defaultOptions.maxBackoff ∧
      backoffTimeout defaultOptions 3 = 8000000000 :=
  ⟨c2_backoff_formula defaultOptions 3 (by decide) (by decide), rfl⟩

/-- C3: the readiness waiter returns nil for an empty-body report, an error
carrying the payload for a non-empty-body report, the caller's cancellation
cause when the caller's context fires, and `os.ErrClosed` — a failure, not
success — when the endpoint is released before any report. -/
theorem c3_receiver_outcomes :
    receiverOutcome (.report "") = none ∧
    (∀ m : String, m ≠ "" → receiverOutcome (.report m) = some (.msg m)) ∧
    (∀ c : GoErr, c ≠ .sentinelReady → receiverOutcome (.callerCtxDone c) = some c) ∧
    receiverOutcome .released = some .errClosed ∧
    receiverOutcome .released ≠ none := by
  refine ⟨rfl, ?_, ?_, rfl, by decide⟩
  · intro m hm
    have hlen : m.length ≠ 0 := fun h => hm (String.ext (List.length_eq_zero.mp h))
    simp [receiverOutcome, resolvedCause, handlerCause, receiverResult, hlen]
  · intro c hc
    simp [receiverOutcome, resolvedCause, receiverResult, hc]

/-- Witness for `c3_receiver_outcomes`: a failure report with payload
"boom" yields the error "boom", and a caller cancellation with cause
`context.Canceled` yields that cause. -/
theorem c3_receiver_outcomes_witness :
    receiverOutcome (.report "boom") = some (.msg "boom") ∧
      receiverOutcome (.callerCtxDone .canceled) = some .canceled :=
  ⟨c3_receiver_outcomes.2.1 "boom" (by decide),
   c3_receiver_outcomes.2.2.1 .canceled (by decide)⟩

/-- C10: success is decided by the sentinel's identity, not by message
text: a report whose non-empty body is exactly "ready" resolves the waiter
with an error carrying the message "ready", never with success, and only an
empty-body report yields a nil result. -/
theorem c10_sentinel_identity :
    receiverOutcome (.report "ready") = some (.msg "ready") ∧
    receiverOutcome (.report "") = none ∧
    (∀ body : String, body ≠ "" → receiverOutcome (.report body) ≠ none) := by
  refine ⟨rfl, rfl, ?_⟩
  intro body hb
  have hlen : body.length ≠ 0 := fun h => hb (String.ext (List.length_eq_zero.mp h))
  simp [receiverOutcome, resolvedCause, handlerCause, receiverResult, hlen]

/-- Witness for `c10_sentinel_identity`: the report with body "ready" does
not resolve the waiter with success. -/
theorem c10_sentinel_identity_witness :
    receiverOutcome (.report "ready") ≠ none :=
  c10_sentinel_identity.2.2 "ready" (by decide)

/-- C5: if the child exits before any readiness report — `runErr = none` is
a clean exit with code 0 — the loop moves from `running` to the backoff
state, never to the healthy wait state: the exit cancels the per-attempt
context with a non-sentinel cause, so the receiver returns an error. -/
theorem c5_child_exit_backoff (i : Nat) (r : Option String) :
    loopStep (.running i) (.childExit r) = some (.backing i) ∧
      loopStep (.running i) (.childExit r) ≠ some .healthy := by
  have h : loopStep (.running i) (.childExit r) = some (.backing i) := by
    cases r <;> rfl
  refine ⟨h, ?_⟩
  rw [h]
  simp

/-- Helper for C4: a run that leaves the healthy wait state begins with one
of the two events of the select at part_000 lines 130-133: the per-attempt
context firing (the child exited) or outer cancellation. -/
theorem healthy_first_event (l : List LoopEvent) (j : Nat)
    (h : loopRun .healthy l = some (.running j)) :
    LoopEvent.healthyWake ∈ l ∨ LoopEvent.outerCanceled ∈ l := by
  cases l with
  | nil => simp [loopRun] at h
  | cons e es =>
      cases e with
      | healthyWake => exact Or.inl (List.mem_cons_self _ _)
      | outerCanceled => exact Or.inr (List.mem_cons_self _ _)
      | guardClear => simp [loopRun, loopStep] at h
      | guardCanceled => simp [loopRun, loopStep] at h
      | report body => simp [loopRun, loopStep] at h
      | childExit r => simp [loopRun, loopStep] at h
      | backoffElapsed => simp [loopRun, loopStep] at h

/-- C4: if an attempt's child reports readiness (the empty-body report) and
the loop later reaches a `running` state again (a new child is started),
then the intervening events include either the per-attempt context firing
(the child exited) or outer cancellation: a healthy child is never
restarted spuriously. -/
theorem c4_healthy_no_restart (i j : Nat) (es : List LoopEvent)
    (h : loopRun (.running i) (.report "" :: es) = some (.running j)) :
    LoopEvent.healthyWake ∈ es ∨ LoopEvent.outerCanceled ∈ es := by
  have h2 : loopRun .healthy es = some (.running j) := by
    simpa [loopRun, loopStep, runningCause, handlerCause, receiverResult] using h
  exact healthy_first_event es j h2

/-- Witness for `c4_healthy_no_restart`: the run ready-report, child exit,
guard clear reaches a new `running` state, and its intervening events
contain the child-exit wake. -/
theorem c4_healthy_no_restart_witness :
    LoopEvent.healthyWake ∈ [LoopEvent.healthyWake, LoopEvent.guardClear] ∨
      LoopEvent.outerCanceled ∈ [LoopEvent.healthyWake, LoopEvent.guardClear] :=
  c4_healthy_no_restart 0 1 [LoopEvent.healthyWake, LoopEvent.guardClear] (by rfl)

/-- C6: `SelfMonitor` fails with the configuration error when the
defaulted options have max backoff below min backoff, fails with
`os.ErrInvalid` when `envKey` is empty (and the options pass `check`, which
runs first), and in either situation control never reaches the supervision
loop, so no process is spawned. -/
theorem c6_validation (envKey : String) (env : String → String) (optsIn : Option Options) :
    ((effectiveOptions optsIn).maxBackoff < (effectiveOptions optsIn).minBackoff →
        selfMonitorPre envKey env optsIn
          = .fail (.msg "max backoff timeout is smaller than min backoff timeout")) ∧
    (¬ (effectiveOptions optsIn).maxBackoff < (effectiveOptions optsIn).minBackoff →
        envKey = "" → selfMonitorPre envKey env optsIn = .fail .errInvalid) ∧
    (((effectiveOptions optsIn).maxBackoff < (effectiveOptions optsIn).minBackoff
        ∨ envKey = "") →
      ∀ o2 : Options, selfMonitorPre envKey env optsIn ≠ .monitorLoop o2) := by
  refine ⟨?_, ?_, ?_⟩
  · intro h
    simp [selfMonitorPre, Options.check, h]
  · intro h hk
    subst hk
    simp [selfMonitorPre, Options.check, h]
  · intro h o2
    rcases h with h | h
    · simp [selfMonitorPre, Options.check, h]
    · subst h
      by_cases hc :
          (effectiveOptions optsIn).maxBackoff < (effectiveOptions optsIn).minBackoff
      · simp [selfMonitorPre, Options.check, hc]
      · simp [selfMonitorPre, Options.check, hc]

/-- Witness for `c6_validation`: with an empty key and default options,
`SelfMonitor` returns `os.ErrInvalid` and never reaches the loop. -/
theorem c6_validation_witness :
    selfMonitorPre "" (fun _ => "") none = .fail .errInvalid ∧
      ∀ o2 : Options, selfMonitorPre "" (fun _ => "") none ≠ .monitorLoop o2 :=
  ⟨(c6_validation "" (fun _ => "") none).2.1 (by decide) rfl,
   (c6_validation "" (fun _ => "") none).2.2 (Or.inr rfl)⟩

/-- An option set that fails `check` after defaults: min backoff 2s, max
backoff 1s. -/
def badOptions : Options :=
  { shutdownSignal := none, shutdownTimeout := 0,
    minBackoff := 2000000000, maxBackoff := 1000000000 }

/-- C7 counterexample: a process whose environment carries a non-empty
value for `envKey` still gets the configuration error — not a nil return —
when the options are inconsistent, because `SelfMonitor` validates the
options before testing the environment (part_000 lines 63-74). -/
theorem c7_child_counterexample :
    selfMonitorPre "K" (fun s => if s = "K" then "x" else "") (some badOptions)
        = .fail (.msg "max backoff timeout is smaller than min backoff timeout") ∧
      selfMonitorPre "K" (fun s => if s = "K" then "x" else "") (some badOptions)
        ≠ .childReturnNil :=
  ⟨rfl, by decide⟩

/-- C7 (amended): when the defaulted options pass `check` and `envKey` is
non-empty, a process whose environment carries a non-empty value for
`envKey` gets an immediate nil return from `SelfMonitor`, and the
supervision loop — the only place children are spawned — is never
reached. -/
theorem c7_child_returns_nil (envKey : String) (env : String → String)
    (optsIn : Option Options)
    (hopts : (effectiveOptions optsIn).check = none)
    (hkey : envKey ≠ "") (hval : env envKey ≠ "") :
    selfMonitorPre envKey env optsIn = .childReturnNil := by
  have hk : envKey.length ≠ 0 := fun h => hkey (String.ext (List.length_eq_zero.mp h))
  have hv : (env envKey).length ≠ 0 := fun h => hval (String.ext (List.length_eq_zero.mp h))
  simp [selfMonitorPre, hopts, hk, hv]

/-- Witness for `c7_child_returns_nil` at key "K", an environment mapping
"K" to "x", and a nil options pointer. -/
theorem c7_child_returns_nil_witness :
    selfMonitorPre "K" (fun s => if s = "K" then "x" else "") none = .childReturnNil :=
  c7_child_returns_nil "K" (fun s => if s = "K" then "x" else "") none
    (by decide) (by decide) (by decide)

/-- C8: the environment `daemonizeParent` passes to the background process
is exactly the four entries PATH, USER and HOME with the caller's current
values plus `envKey=envValue`; every entry of that environment is one of
those four, so no other variable of the caller's environment is
inherited. -/
theorem c8_daemonize_env (env : String → String) (k v : String) :
    daemonizeParentEnv env k v
        = [("PATH", env "PATH"), ("USER", env "USER"), ("HOME", env "HOME"), (k, v)] ∧
      (∀ name val : String, (name, val) ∈ daemonizeParentEnv env k v →
        (name = "PATH" ∧ val = env "PATH") ∨ (name = "USER" ∧ val = env "USER") ∨
          (name = "HOME" ∧ val = env "HOME") ∨ (name = k ∧ val = v)) := by
  refine ⟨rfl, ?_⟩
  intro name val h
  simp [daemonizeParentEnv, Prod.ext_iff] at h
  tauto

/-- Witness for `c8_daemonize_env`: the entry ("K", "V") of the environment
built for key "K" and value "V" is the key entry itself. -/
theorem c8_daemonize_env_witness :
    (("K" : String) = "PATH" ∧ ("V" : String) = (fun _ : String => "") "PATH") ∨
      (("K" : String) = "USER" ∧ ("V" : String) = (fun _ : String => "") "USER") ∨
      (("K" : String) = "HOME" ∧ ("V" : String) = (fun _ : String => "") "HOME") ∨
      (("K" : String) = "K" ∧ ("V" : String) = "V") :=
  (c8_daemonize_env (fun _ => "") "K" "V").2 "K" "V" (by decide)

/-- C9: for a non-nil options pointer, the caller's `Options` value after
`SelfMonitor` returns is the defaulted value: each field that was zero on
entry now holds its default (interrupt signal, 10s shutdown timeout, 1s min
backoff, 1min max backoff) and each non-zero field is unchanged. -/
theorem c9_opts_defaults (o : Options) :
    (o.shutdownSignal = none → (selfMonitorOptsAfter o).shutdownSignal = some .interrupt) ∧
    (o.shutdownSignal ≠ none → (selfMonitorOptsAfter o).shutdownSignal = o.shutdownSignal) ∧
    (o.shutdownTimeout = 0 → (selfMonitorOptsAfter o).shutdownTimeout = 10000000000) ∧
    (o.shutdownTimeout ≠ 0 → (selfMonitorOptsAfter o).shutdownTimeout = o.shutdownTimeout) ∧
    (o.minBackoff = 0 → (selfMonitorOptsAfter o).minBackoff = 1000000000) ∧
    (o.minBackoff ≠ 0 → (selfMonitorOptsAfter o).minBackoff = o.minBackoff) ∧
    (o.maxBackoff = 0 → (selfMonitorOptsAfter o).maxBackoff = 60000000000) ∧
    (o.maxBackoff ≠ 0 → (selfMonitorOptsAfter o).maxBackoff = o.maxBackoff) := by
  obtain ⟨sig, st, mn, mx⟩ := o
  by_cases h1 : sig = (none : Option Sig) <;>
    by_cases h2 : st = (0 : Int) <;>
      by_cases h3 : mn = (0 : Int) <;>
        by_cases h4 : mx = (0 : Int) <;>
          refine ⟨?_, ?_, ?_, ?_, ?_, ?_, ?_, ?_⟩ <;> intro h <;>
            simp_all [selfMonitorOptsAfter, Options.setDefaults]

/-- Witness for `c9_opts_defaults`: the zero options value gets all four
defaults. -/
theorem c9_opts_defaults_witness :
    (selfMonitorOptsAfter zeroOptions).shutdownSignal = some .interrupt ∧
      (selfMonitorOptsAfter zeroOptions).shutdownTimeout = 10000000000 ∧
      (selfMonitorOptsAfter zeroOptions).minBackoff = 1000000000 ∧
      (selfMonitorOptsAfter zeroOptions).maxBackoff = 60000000000 :=
  ⟨(c9_opts_defaults zeroOptions).1 rfl,
   (c9_opts_defaults zeroOptions).2.2.1 rfl,
   (c9_opts_defaults zeroOptions).2.2.2.2.1 rfl,
   (c9_opts_defaults zeroOptions).2.2.2.2.2.2.1 rfl⟩

end Daemon
